import Mathlib

/-!
# Verification of the `result` library (`src/src/result.ts`)

A shallow embedding of the library's runtime behaviour.  Dynamic
(JavaScript) values are modelled by the inductive type `Value`; objects
and the named properties of arrays are association lists from property
names to values.  A zero-argument computation is modelled by its
observable outcome: either it returns a value or it throws one
(`Outcome`).  The adapters `tryCatch` / `tryCatchAsync` are translated
clause by clause from the source; the asynchronous adapter is modelled
on the settled outcome of the awaited computation.
-/

/-- A dynamic (JavaScript) runtime value.  Arrays carry their element
list and, separately, any named (non-index) properties attached to
them; plain objects are association lists of named properties. -/
inductive Value : Type where
  | vUndefined : Value
  | vNull : Value
  | vBool : Bool → Value
  | vNum : Int → Value
  | vStr : String → Value
  | vArr : List Value → List (String × Value) → Value
  | vObj : List (String × Value) → Value

namespace ResultLib

open Value

/-- Translation of `typeof value === "object"`: true exactly for
`null`, arrays and plain objects. -/
def typeofObject : Value → Bool
  | vNull => true
  | vArr _ _ => true
  | vObj _ => true
  | _ => false

/-- Translation of `value !== null`. -/
def isNotNull : Value → Bool
  | vNull => false
  | _ => true

/-- Translation of the `in` operator restricted to the property names this library
probes (`success`, `data`, `error`), none of which is an array index:
presence of a named property on an object or on an array. -/
def hasProp : Value → String → Bool
  | vObj fs, k => fs.any (fun f => f.1 == k)
  | vArr _ ps, k => ps.any (fun f => f.1 == k)
  | _, _ => false

/-- Property read (`value.k`) for named properties; `none` models the
property being absent (the read would yield `undefined`). -/
def getProp : Value → String → Option Value
  | vObj fs, k => (fs.find? (fun f => f.1 == k)).map (fun f => f.2)
  | vArr _ ps, k => (ps.find? (fun f => f.1 == k)).map (fun f => f.2)
  | _, _ => none

/-- Translation of `succeed(data)` from `src/src/result.ts` lines 49–53:
`{ success: true, data }`. -/
def succeed (data : Value) : Value :=
  vObj [("success", vBool true), ("data", data)]

/-- Calling `succeed()` with no argument: the optional parameter `data`
is filled with `undefined`. -/
def succeedNoArg : Value :=
  succeed vUndefined

/-- Translation of `fail(error)` from `src/src/result.ts` lines 61–63:
`{ success: false, error }`. -/
def fail (error : Value) : Value :=
  vObj [("success", vBool false), ("error", error)]

/-- Translation of `isResult` from `src/src/result.ts` lines 104–113:
`typeof value === "object" && value !== null && "success" in value &&
typeof value.success === "boolean" && ((value.success === true &&
"data" in value) || (value.success === false && "error" in value))`. -/
def isResult (value : Value) : Bool :=
  typeofObject value && isNotNull value && hasProp value "success" &&
    (match getProp value "success" with
      | some (vBool true) => hasProp value "data"
      | some (vBool false) => hasProp value "error"
      | _ => false)

/-- The observable behaviour of a zero-argument computation: it either
returns a value or throws one. -/
inductive Outcome : Type where
  | ret : Value → Outcome
  | thr : Value → Outcome

/-- The optional fault converter `onError`. -/
abbrev Conv := Option (Value → Value)

/-- Translation of `onError ? onError(error) : error` — the error value
computed in the catch branch of both adapters. -/
def convert (onError : Conv) (e : Value) : Value :=
  match onError with
  | some c => c e
  | none => e

/-- Translation of `tryCatch` from `src/src/result.ts` lines 152–168: run `fn`; on a
normal return classify the value with `isResult`, returning it
unchanged when it already has Result shape and wrapping it with
`succeed` otherwise; on a throw return `fail` of the converted
fault. -/
def tryCatch (fn : Outcome) (onError : Conv) : Value :=
  match fn with
  | .ret result => if isResult result then result else succeed result
  | .thr error => fail (convert onError error)

/-- Translation of `tryCatchAsync` from `src/src/result.ts` lines 206–227, modelled on
the settled outcome of `await fn()`: a resolution is classified with
`isResult` and wrapped with `succeed` when not already a Result; a
rejection (wherever it was raised during the suspension) becomes
`fail` of the converted fault. -/
def tryCatchAsync (fn : Outcome) (onError : Conv) : Value :=
  match fn with
  | .ret result => if isResult result then result else succeed result
  | .thr error => fail (convert onError error)

/-- The compiled, non-flattening `tryCatch` from `src/unnamed/part_000`
lines 13–21 (the same function appears as the second variant in
`src/src/result.ts` lines 271–281): `return succeed(fn())`, and on a
throw `fail(onError ? onError(error) : error)`. -/
def tryCatchCompiled (fn : Outcome) (onError : Conv) : Value :=
  match fn with
  | .ret v => succeed v
  | .thr error => fail (convert onError error)

/-- The compiled, non-flattening `tryCatchAsync` from
`src/unnamed/part_000` lines 25–34, modelled on the settled outcome of
`await fn()`. -/
def tryCatchAsyncCompiled (fn : Outcome) (onError : Conv) : Value :=
  match fn with
  | .ret v => succeed v
  | .thr error => fail (convert onError error)

/-- Shape condition as the specification words it («a non-null
structured record that is not a primitive, not an array, and not null»
carrying the boolean tag `success` and the sibling field demanded by
the tag).  Stated from the specification, to be compared against the
source's `isResult`. -/
def claimedResultShape (value : Value) : Bool :=
  (match value with | vObj _ => true | _ => false) &&
    hasProp value "success" &&
    (match getProp value "success" with
      | some (vBool true) => hasProp value "data"
      | some (vBool false) => hasProp value "error"
      | _ => false)

/-- Shape condition with the array exclusion dropped: an array carrying
the tag and sibling properties also qualifies.  This is the amended form
of the specification's algorithm. -/
def claimedResultShapeAmended (value : Value) : Bool :=
  (match value with | vObj _ => true | vArr _ _ => true | _ => false) &&
    hasProp value "success" &&
    (match getProp value "success" with
      | some (vBool true) => hasProp value "data"
      | some (vBool false) => hasProp value "error"
      | _ => false)

/-- Whether a value carries exactly the fields of its Result variant:
`{ success: true, data }` or `{ success: false, error }`, with no other
fields. -/
def exactVariantShape : Value → Bool
  | vObj [("success", vBool true), ("data", _)] => true
  | vObj [("success", vBool false), ("error", _)] => true
  | _ => false

/-- Observable execution record of one adapter call: the returned value,
how many times `fn` and `onError` were invoked, and which of the two
branches (normal-return classification versus fault conversion) ran. -/
structure Trace where
  result : Value
  fnCalls : Nat
  onErrorCalls : Nat
  wrapBranch : Bool
  faultBranch : Bool

/-- Instrumented `tryCatch`: same control flow as the source
(`src/src/result.ts` lines 152–168), additionally recording invocation
counts and the branch taken.  `fn` is invoked once at the top of the
`try` block; `onError` is invoked only in the `catch` block and only
when supplied. -/
def tryCatchTraced (fn : Outcome) (onError : Conv) : Trace :=
  match fn with
  | .ret result =>
      { result := if isResult result then result else succeed result
        fnCalls := 1
        onErrorCalls := 0
        wrapBranch := true
        faultBranch := false }
  | .thr error =>
      { result := fail (convert onError error)
        fnCalls := 1
        onErrorCalls := match onError with | some _ => 1 | none => 0
        wrapBranch := false
        faultBranch := true }

/-- Instrumented `tryCatchAsync` (`src/src/result.ts` lines 206–227),
on the settled outcome of the awaited computation. -/
def tryCatchAsyncTraced (fn : Outcome) (onError : Conv) : Trace :=
  match fn with
  | .ret result =>
      { result := if isResult result then result else succeed result
        fnCalls := 1
        onErrorCalls := 0
        wrapBranch := true
        faultBranch := false }
  | .thr error =>
      { result := fail (convert onError error)
        fnCalls := 1
        onErrorCalls := match onError with | some _ => 1 | none => 0
        wrapBranch := false
        faultBranch := true }

/-- Values built by `succeed` always pass the shape detector. -/
theorem isResult_succeed (v : Value) : isResult (succeed v) = true := rfl

/-- Values built by `fail` always pass the shape detector. -/
theorem isResult_fail (e : Value) : isResult (fail e) = true := rfl

/-- On a normal return whose value already has Result shape, `tryCatch`
returns that value unchanged. -/
theorem tryCatch_ret_result (r : Value) (c : Conv) (h : isResult r = true) :
    tryCatch (.ret r) c = r := by
  simp [tryCatch, h]

/-- On a normal return whose value does not have Result shape,
`tryCatch` wraps it with `succeed`. -/
theorem tryCatch_ret_plain (v : Value) (c : Conv) (h : isResult v = false) :
    tryCatch (.ret v) c = succeed v := by
  simp [tryCatch, h]

/-- Every value `tryCatch` returns passes the shape detector. -/
theorem isResult_tryCatch (fn : Outcome) (c : Conv) :
    isResult (tryCatch fn c) = true := by
  cases fn with
  | ret v =>
      cases hv : isResult v with
      | true => simp [tryCatch, hv]
      | false => simp [tryCatch, hv, isResult_succeed]
  | thr e => exact isResult_fail (convert c e)

/-- Every value `tryCatchAsync` resolves with passes the shape detector. -/
theorem isResult_tryCatchAsync (fn : Outcome) (c : Conv) :
    isResult (tryCatchAsync fn c) = true := by
  cases fn with
  | ret v =>
      cases hv : isResult v with
      | true => simp [tryCatchAsync, hv]
      | false => simp [tryCatchAsync, hv, isResult_succeed]
  | thr e => exact isResult_fail (convert c e)

/-- Values built by `succeed` carry exactly the Success fields. -/
theorem exactVariantShape_succeed (v : Value) :
    exactVariantShape (succeed v) = true := rfl

/-- Values built by `fail` carry exactly the Failure fields. -/
theorem exactVariantShape_fail (e : Value) :
    exactVariantShape (fail e) = true := rfl

/-- C1: a non-throwing computation whose return value already has
Result shape — in particular one built by `succeed` or by `fail` — has
that value returned by `tryCatch` unchanged: `succeed x` yields
`succeed x`, `fail x` yields `fail x`, with no double-wrapping. -/
theorem tryCatch_preserves_result_shaped_returns (x r : Value) (c : Conv)
    (h : isResult r = true) :
    tryCatch (.ret (succeed x)) c = succeed x ∧
    tryCatch (.ret (fail x)) c = fail x ∧
    tryCatch (.ret r) c = r :=
  ⟨tryCatch_ret_result _ _ (isResult_succeed x),
   tryCatch_ret_result _ _ (isResult_fail x),
   tryCatch_ret_result r c h⟩

/-- Witness for C1 at the concrete input `succeed 1`. -/
theorem tryCatch_preserves_result_shaped_returns_witness :
    isResult (succeed (vNum 1)) = true ∧
    tryCatch (.ret (succeed (vNum 1))) none = succeed (vNum 1) :=
  ⟨rfl, (tryCatch_preserves_result_shaped_returns (vNum 1) (succeed (vNum 1)) none rfl).1⟩

/-- C2 (counterexample): the flattening `tryCatch` and the
non-flattening compiled `tryCatch` disagree on a computation that
returns `succeed 0` — the former returns it unchanged, the latter wraps
it again. -/
theorem tryCatch_variants_differ_on_result_returns :
    tryCatch (.ret (succeed (vNum 0))) none
      ≠ tryCatchCompiled (.ret (succeed (vNum 0))) none := by
  intro h
  have hb : (false : Bool) = true :=
    congrArg
      (fun w => match getProp w "data" with | some d => isResult d | none => false) h
  exact Bool.noConfusion hb

/-- C2 (amended): the two `tryCatch` variants (and likewise the two
`tryCatchAsync` variants) agree exactly on computations that throw and
on computations returning a value without Result shape; they differ
when the returned value already has Result shape. -/
theorem tryCatch_variants_agree_off_result_shapes (v t : Value) (c : Conv) :
    (isResult v = false →
      tryCatch (.ret v) c = tryCatchCompiled (.ret v) c ∧
      tryCatchAsync (.ret v) c = tryCatchAsyncCompiled (.ret v) c) ∧
    tryCatch (.thr t) c = tryCatchCompiled (.thr t) c ∧
    tryCatchAsync (.thr t) c = tryCatchAsyncCompiled (.thr t) c := by
  refine ⟨fun h => ⟨?_, ?_⟩, rfl, rfl⟩
  · simp [tryCatch, tryCatchCompiled, h]
  · simp [tryCatchAsync, tryCatchAsyncCompiled, h]

/-- Witness for the amended C2 at the plain value 5. -/
theorem tryCatch_variants_agree_off_result_shapes_witness :
    tryCatch (.ret (vNum 5)) none = tryCatchCompiled (.ret (vNum 5)) none ∧
    tryCatchAsync (.ret (vNum 5)) none = tryCatchAsyncCompiled (.ret (vNum 5)) none :=
  (tryCatch_variants_agree_off_result_shapes (vNum 5) (vNum 0) none).1 rfl

/-- C3 (counterexample): an array carrying a boolean `success` property
and a `data` property is classified as a Result by `isResult`, although
the claimed algorithm excludes arrays. -/
theorem isResult_accepts_tagged_array :
    isResult (vArr [] [("success", vBool true), ("data", vNum 0)]) = true ∧
    claimedResultShape (vArr [] [("success", vBool true), ("data", vNum 0)]) = false :=
  ⟨rfl, rfl⟩

/-- C3 (amended): `isResult` classifies a value as a Result if and only
if it is a non-null object or array carrying the tag property `success`
whose value is one of the two boolean literals, together with a `data`
property when the tag is true resp. an `error` property when it is
false (presence only); every other shape is rejected. -/
theorem isResult_matches_amended_claimed_shape (v : Value) :
    isResult v = claimedResultShapeAmended v := by
  cases v <;> rfl

/-- C4: on a computation throwing `t`, `tryCatch` returns
`fail (c t)` when a converter `c` is supplied and `fail t` — the thrown
value itself — when none is. -/
theorem tryCatch_converts_thrown_faults (t : Value) (oe : Value → Value) :
    tryCatch (.thr t) (some oe) = fail (oe t) ∧
    tryCatch (.thr t) none = fail t :=
  ⟨rfl, rfl⟩

/-- C5: both adapters are total and always return a value of Result
shape; per call the instrumented control flow invokes `fn` exactly
once, invokes `onError` at most once, and runs exactly one of the
normal-return branch and the fault branch. -/
theorem adapters_are_total_single_shot (fn : Outcome) (c : Conv) :
    isResult (tryCatch fn c) = true ∧
    isResult (tryCatchAsync fn c) = true ∧
    (tryCatchTraced fn c).result = tryCatch fn c ∧
    (tryCatchAsyncTraced fn c).result = tryCatchAsync fn c ∧
    (tryCatchTraced fn c).fnCalls = 1 ∧
    (tryCatchTraced fn c).onErrorCalls ≤ 1 ∧
    (tryCatchAsyncTraced fn c).fnCalls = 1 ∧
    (tryCatchAsyncTraced fn c).onErrorCalls ≤ 1 ∧
    (tryCatchTraced fn c).wrapBranch = !(tryCatchTraced fn c).faultBranch ∧
    (tryCatchAsyncTraced fn c).wrapBranch = !(tryCatchAsyncTraced fn c).faultBranch := by
  refine ⟨isResult_tryCatch fn c, isResult_tryCatchAsync fn c, ?_, ?_, ?_, ?_, ?_, ?_, ?_, ?_⟩ <;>
    cases fn <;> cases c <;>
    simp [tryCatchTraced, tryCatchAsyncTraced, tryCatch, tryCatchAsync]

/-- C6: after awaiting, `tryCatchAsync` yields exactly what `tryCatch`
yields on the settled outcome: a resolved non-Result value is wrapped
with `succeed`, a resolved Result-shaped value is returned unchanged,
and a rejection becomes `fail` of the (converted) fault. -/
theorem tryCatchAsync_agrees_with_tryCatch (fn : Outcome) (c : Conv) (v r t : Value)
    (oe : Value → Value) :
    tryCatchAsync fn c = tryCatch fn c ∧
    (isResult v = false → tryCatchAsync (.ret v) c = succeed v) ∧
    (isResult r = true → tryCatchAsync (.ret r) c = r) ∧
    tryCatchAsync (.thr t) (some oe) = fail (oe t) ∧
    tryCatchAsync (.thr t) none = fail t := by
  refine ⟨?_, fun h => by simp [tryCatchAsync, h], fun h => by simp [tryCatchAsync, h],
    rfl, rfl⟩
  cases fn <;> rfl

/-- Witness for C6 at a plain resolution and at a Result-shaped one. -/
theorem tryCatchAsync_agrees_with_tryCatch_witness :
    tryCatchAsync (.ret (vNum 2)) none = succeed (vNum 2) ∧
    tryCatchAsync (.ret (succeed (vNum 2))) none = succeed (vNum 2) :=
  ⟨(tryCatchAsync_agrees_with_tryCatch (.ret (vNum 2)) none (vNum 2)
      (succeed (vNum 2)) (vNum 0) (fun w => w)).2.1 rfl,
   (tryCatchAsync_agrees_with_tryCatch (.ret (vNum 2)) none (vNum 2)
      (succeed (vNum 2)) (vNum 0) (fun w => w)).2.2.1 rfl⟩

/-- C7: a non-throwing computation returning a value without Result
shape has that value wrapped: `tryCatch` returns `succeed v`. -/
theorem tryCatch_wraps_plain_values (v : Value) (c : Conv)
    (h : isResult v = false) :
    tryCatch (.ret v) c = succeed v :=
  tryCatch_ret_plain v c h

/-- Witness for C7 at the plain value 3. -/
theorem tryCatch_wraps_plain_values_witness :
    isResult (vNum 3) = false ∧
    tryCatch (.ret (vNum 3)) none = succeed (vNum 3) :=
  ⟨rfl, tryCatch_wraps_plain_values (vNum 3) none rfl⟩

/-- C8 (counterexample): the flattening branch of `tryCatch` returns a
Result-shaped value with an extra field unchanged, so a public
operation can return a Success carrying a field other than
`success`/`data`. -/
theorem tryCatch_can_return_extra_fields :
    tryCatch (.ret (vObj [("success", vBool true), ("data", vNum 1), ("extra", vNum 2)])) none
      = vObj [("success", vBool true), ("data", vNum 1), ("extra", vNum 2)] ∧
    hasProp (vObj [("success", vBool true), ("data", vNum 1), ("extra", vNum 2)]) "extra"
      = true :=
  ⟨rfl, rfl⟩

/-- C8 (amended): every Result built by `succeed` or `fail` — and hence
every Result produced by the adapters' wrap branch and fault branch —
carries exactly the fields of its variant; the flattening branch
returns the computation's own value, which is guaranteed only to carry
the tag and the payload field the tag demands. -/
theorem constructed_results_exact_fields (v e t : Value) (c : Conv) (fn : Outcome) :
    exactVariantShape (succeed v) = true ∧
    exactVariantShape (fail e) = true ∧
    (isResult v = false →
      exactVariantShape (tryCatch (.ret v) c) = true ∧
      exactVariantShape (tryCatchAsync (.ret v) c) = true) ∧
    exactVariantShape (tryCatch (.thr t) c) = true ∧
    exactVariantShape (tryCatchAsync (.thr t) c) = true ∧
    isResult (tryCatch fn c) = true ∧
    isResult (tryCatchAsync fn c) = true :=
  ⟨exactVariantShape_succeed v,
   exactVariantShape_fail e,
   fun h =>
     ⟨by rw [tryCatch_ret_plain v c h]; exact exactVariantShape_succeed v,
      by simp [tryCatchAsync, h, exactVariantShape_succeed]⟩,
   exactVariantShape_fail (convert c t),
   exactVariantShape_fail (convert c t),
   isResult_tryCatch fn c,
   isResult_tryCatchAsync fn c⟩

/-- Witness for the amended C8 at the plain value 7. -/
theorem constructed_results_exact_fields_witness :
    exactVariantShape (tryCatch (.ret (vNum 7)) none) = true ∧
    exactVariantShape (tryCatchAsync (.ret (vNum 7)) none) = true :=
  (constructed_results_exact_fields (vNum 7) (vStr "e") (vStr "t") none
    (.ret (vNum 7))).2.2.1 rfl

/-- C9: `succeed v` carries tag `true` and exactly the payload `v`;
`succeed()` carries payload `undefined`; `fail e` carries tag `false`
and exactly the payload `e`; all are total constructions. -/
theorem constructors_store_payload_identically (v e : Value) :
    getProp (succeed v) "success" = some (vBool true) ∧
    getProp (succeed v) "data" = some v ∧
    getProp succeedNoArg "success" = some (vBool true) ∧
    getProp succeedNoArg "data" = some vUndefined ∧
    getProp (fail e) "success" = some (vBool false) ∧
    getProp (fail e) "error" = some e :=
  ⟨rfl, rfl, rfl, rfl, rfl, rfl⟩

/-- C10: nesting the synchronous adapter is idempotent —
`tryCatch (fun _ => tryCatch fn c)` equals `tryCatch fn c` — and
flattening is one level deep: a Result whose payload is itself a Result
is returned as-is, the inner payload never unwrapped. -/
theorem tryCatch_idempotent_one_level_flatten (fn : Outcome) (c c2 : Conv) (v : Value) :
    tryCatch (.ret (tryCatch fn c)) c2 = tryCatch fn c ∧
    tryCatch (.ret (succeed (fail v))) c2 = succeed (fail v) ∧
    tryCatch (.ret (fail (succeed v))) c2 = fail (succeed v) :=
  ⟨tryCatch_ret_result _ _ (isResult_tryCatch fn c),
   tryCatch_ret_result _ _ (isResult_succeed (fail v)),
   tryCatch_ret_result _ _ (isResult_fail (succeed v))⟩

end ResultLib
